import Mathlib

/-!
Shallow embedding of the Alpha-Ledger-Core execution simulation engine.

Money arithmetic is embedded over `ℚ` (the Python source uses floats; all
constants in the source are exact decimals, which `ℚ` represents exactly).
The single irrational constant, `np.sqrt(252)` in the position sizer, is
passed as an explicit parameter `sqrt_252`; theorems about the sizer
instantiate it with `Real.sqrt 252` over `ℝ`.

Source files embedded:
  src/execution/slippage.py      → SlippageModel
  src/execution/fees.py          → IndianTaxModel, TradeCost
  src/risk_engine/sizing.py      → PositionSizer
  src/risk_engine/compliance.py  → RiskCompliance
  src/analytics/ledger.py        → TradeRecord, log_trade
  src/execution/order_manager.py → Order, OMState (OrderManager state)
  src/main.py                    → EngineState, EngineState.step
-/

/-- Order / fill side: the strings 'BUY' and 'SELL' in the source. -/
inductive Side where
  | BUY
  | SELL
deriving DecidableEq, Repr

/-- Order type: the strings 'MARKET', 'LIMIT', 'STOP' in the source. -/
inductive OrderType where
  | MARKET
  | LIMIT
  | STOP
deriving DecidableEq, Repr

/-- Order status: 'OPEN', 'FILLED', 'CANCELLED', 'REJECTED'. -/
inductive OrderStatus where
  | OPEN
  | FILLED
  | CANCELLED
  | REJECTED
deriving DecidableEq, Repr

/-- Asset class: 'EQUITY' (delivery) or 'INTRADAY'. -/
inductive AssetType where
  | EQUITY
  | INTRADAY
deriving DecidableEq, Repr

/-! ## src/execution/slippage.py -/

/-- `SlippageModel.__init__(base_bps)`. -/
structure SlippageModel where
  base_bps : ℚ
deriving DecidableEq, Repr

/-- `self.base_slippage = base_bps / 10000.0`. -/
def SlippageModel.base_slippage (m : SlippageModel) : ℚ :=
  m.base_bps / 10000

/-- `SlippageModel.calculate_fill_price(target_price, side, volatility=None)`.
`volatility = none` models the Python default `None`; the Python guard
`if volatility and volatility > 0.01` is truthiness (`None`/`0.0` falsy)
followed by the comparison, so it is `v ≠ 0 ∧ 0.01 < v` when a value is
supplied. -/
def SlippageModel.calculate_fill_price (m : SlippageModel) (target_price : ℚ)
    (side : Side) (volatility : Option ℚ) : ℚ :=
  let impact0 := m.base_slippage
  let impact :=
    match volatility with
    | some v => if v ≠ 0 ∧ 0.01 < v then impact0 * 2 else impact0
    | none => impact0
  match side with
  | .BUY => target_price * (1 + impact)
  | .SELL => target_price * (1 - impact)

/-! ## src/execution/fees.py -/

/-- `TradeCost` together with every entry of the `breakdown` dict and the
intermediate `sebi_charges` (computed in the source and included in the
total, though omitted from the breakdown dict). -/
structure TradeCost where
  total_cost : ℚ
  turnover : ℚ
  brokerage : ℚ
  stt : ℚ
  exchange_charges : ℚ
  sebi_charges : ℚ
  stamp_duty : ℚ
  gst : ℚ
deriving DecidableEq, Repr

/-- `IndianTaxModel.__init__(brokerage_per_order=20.0)`: `self.brokerage`. -/
structure IndianTaxModel where
  brokerage : ℚ
deriving DecidableEq, Repr

/-- `IndianTaxModel.calculate(price, quantity, side, asset_type="EQUITY")`. -/
def IndianTaxModel.calculate (m : IndianTaxModel) (price : ℚ) (quantity : ℤ)
    (side : Side) (asset_type : AssetType) : TradeCost :=
  let turnover := price * (quantity : ℚ)
  let brokerage := min (turnover * 0.0003) m.brokerage
  let stt :=
    match asset_type with
    | .EQUITY => turnover * 0.001
    | .INTRADAY => if side = .SELL then turnover * 0.00025 else 0
  let exchange_charges := turnover * 0.0000345
  let sebi_charges := turnover * 0.000001
  let stamp_duty := if side = .BUY then turnover * 0.00015 else 0
  let gst := (brokerage + exchange_charges + sebi_charges) * 0.18
  let total := brokerage + stt + exchange_charges + sebi_charges + stamp_duty + gst
  ⟨total, turnover, brokerage, stt, exchange_charges, sebi_charges, stamp_duty, gst⟩

/-- The cost engine the `OrderManager` constructs: `IndianTaxModel()`
with the default flat brokerage cap of 20. -/
def default_tax_model : IndianTaxModel := ⟨20⟩

/-! ## src/risk_engine/sizing.py -/

/-- `PositionSizer.__init__(target_volatility_annual=0.20)`: `self.target_vol`.
Generic over an ordered field so the same definition serves the engine
(over `ℚ`) and the sizing theorems (over `ℝ` with `Real.sqrt 252`). -/
structure PositionSizer (K : Type) where
  target_vol : K

/-- `PositionSizer.calculate_quantity(capital, price, recent_volatility_daily)`.
`sqrt_252` stands for the constant `np.sqrt(252)` computed in the source;
`int(allocation_amount // price)` is `Int.floor` of the quotient for the
nonnegative values the engine feeds it. -/
def PositionSizer.calculate_quantity {K : Type} [LinearOrderedField K] [FloorRing K]
    (ps : PositionSizer K) (sqrt_252 : K)
    (capital price recent_volatility_daily : K) : ℤ :=
  if recent_volatility_daily ≤ 0 then 0
  else
    let target_daily_vol := ps.target_vol / sqrt_252
    let vol_scalar := target_daily_vol / recent_volatility_daily
    let vol_scalar := min vol_scalar 1
    let allocation_amount := capital * vol_scalar
    ⌊allocation_amount / price⌋

/-! ## src/risk_engine/compliance.py -/

/-- The `current_portfolio` dict as used by `check_trade_permission`:
`positions` (only its keys matter, via `len`), `current_drawdown`,
`sector_allocation` (total map, `.get(sector, 0.0)`), `total_equity`. -/
structure Portfolio where
  positions : List String
  current_drawdown : ℚ
  sector_allocation : String → ℚ
  total_equity : ℚ

/-- The `proposed_trade` dict: `side` string, optional `sector`
(`.get('sector')` yields `None` when absent), `capital_impact`. -/
structure TradeProposal where
  side : String
  sector : Option String
  capital_impact : ℚ

/-- The `{'allowed': ..., 'reason': ...}` result dict. -/
structure CheckResult where
  allowed : Bool
  reason : String
deriving DecidableEq, Repr

/-- `RiskCompliance.__init__(config)`: `max_drawdown_limit` (default 0.15),
`max_sector_exposure` (default 0.30), `max_positions` (default 10). -/
structure RiskCompliance where
  max_dd : ℚ
  max_sector : ℚ
  max_pos : ℕ

/-- The message of the max-positions rejection, with the two numbers the
source interpolates: `f"REJECTED: Max positions reached ({active}/{max})"`. -/
def max_pos_msg (active max_pos : ℕ) : String :=
  "REJECTED: Max positions reached (" ++ toString active ++ "/" ++ toString max_pos ++ ")"

/-- `RiskCompliance.check_trade_permission(current_portfolio, proposed_trade)`.
The drawdown / sector rejection messages interpolate float percentage
formatting; their numeric rendering is abstracted to the fixed text, which is
all the theorems below use. `if target_sector:` is Python truthiness: the
sector check is skipped when the sector is `None` or the empty string. -/
def RiskCompliance.check_trade_permission (rc : RiskCompliance)
    (current_portfolio : Portfolio) (proposed_trade : TradeProposal) : CheckResult :=
  let active_positions := current_portfolio.positions.length
  if active_positions ≥ rc.max_pos ∧ proposed_trade.side = "ENTRY" then
    ⟨false, max_pos_msg active_positions rc.max_pos⟩
  else if current_portfolio.current_drawdown > rc.max_dd then
    ⟨false, "REJECTED: Portfolio in critical drawdown. Trading Halted."⟩
  else
    match proposed_trade.sector with
    | some target_sector =>
      if target_sector ≠ "" then
        let current_sector_alloc := current_portfolio.sector_allocation target_sector
        let trade_impact := proposed_trade.capital_impact
        let total_capital := current_portfolio.total_equity
        let new_exposure := current_sector_alloc + trade_impact / total_capital
        if new_exposure > rc.max_sector then
          ⟨false, "REJECTED: Sector Limit Exceeded"⟩
        else
          ⟨true, "Compliance Checks Passed"⟩
      else
        ⟨true, "Compliance Checks Passed"⟩
    | none => ⟨true, "Compliance Checks Passed"⟩

/-! ## src/analytics/ledger.py -/

/-- One entry of `TradeLedger.trades`: the record dict built by `log_trade`.
Timestamps are abstract naturals (simulation dates). -/
structure TradeRecord where
  ticker : String
  side : String
  entry_date : ℕ
  exit_date : ℕ
  entry_price : ℚ
  exit_price : ℚ
  quantity : ℤ
  fees : ℚ
  gross_pnl : ℚ
  net_pnl : ℚ
  return_pct : ℚ
deriving DecidableEq, Repr

/-- The record `TradeLedger.log_trade` constructs before appending. -/
def mk_trade_record (ticker : String) (entry_date exit_date : ℕ)
    (entry_price exit_price : ℚ) (quantity : ℤ) (side : String)
    (fees : ℚ) : TradeRecord :=
  let gross_pnl :=
    if side = "LONG" then (exit_price - entry_price) * (quantity : ℚ)
    else (entry_price - exit_price) * (quantity : ℚ)
  let net_pnl := gross_pnl - fees
  let return_pct :=
    if entry_price > 0 then net_pnl / (entry_price * (quantity : ℚ)) else 0
  ⟨ticker, side, entry_date, exit_date, entry_price, exit_price, quantity,
   fees, gross_pnl, net_pnl, return_pct⟩

/-- `TradeLedger.log_trade`: appends the record to `self.trades`. -/
def log_trade (trades : List TradeRecord) (ticker : String)
    (entry_date exit_date : ℕ) (entry_price exit_price : ℚ)
    (quantity : ℤ) (side : String) (fees : ℚ) : List TradeRecord :=
  trades ++ [mk_trade_record ticker entry_date exit_date entry_price exit_price
    quantity side fees]

/-! ## src/execution/order_manager.py -/

/-- The `Order` dataclass. The generated `id` string is used only for
external correlation in the source and is omitted; `price` is `None` for
MARKET orders; `fill_time` is an abstract simulation date. -/
structure Order where
  symbol : String
  quantity : ℤ
  side : Side
  order_type : OrderType
  price : Option ℚ
  status : OrderStatus
  fill_price : ℚ
  fill_time : Option ℕ
  fees : ℚ
deriving DecidableEq, Repr

/-- `Order(symbol, quantity, side, order_type)` with the dataclass defaults:
status OPEN, no price, no fill. This is how `main.py` constructs orders. -/
def mk_order (symbol : String) (quantity : ℤ) (side : Side)
    (order_type : OrderType) : Order :=
  ⟨symbol, quantity, side, order_type, none, .OPEN, 0, none, 0⟩

/-- One bar of market data for one symbol: the dict
`{'open': ..., 'high': ..., 'low': ..., 'close': ...}`. `open_` renders the
key `'open'` (a Lean keyword). -/
structure BarData where
  open_ : ℚ
  high : ℚ
  low : ℚ
  close : ℚ
deriving DecidableEq, Repr

/-- The mutable state of `OrderManager`: its two order lists. The helper
engines it constructs are the fixed `SlippageModel(base_bps=5.0)` and
`IndianTaxModel()` below. -/
structure OMState where
  open_orders : List Order
  filled_orders : List Order
deriving DecidableEq, Repr

/-- `self.slippage_engine = SlippageModel(base_bps=5.0)`. -/
def engine_slippage : SlippageModel := ⟨5⟩

/-- `OrderManager.place_order(order)`: rejects non-positive quantity without
touching the book, otherwise appends to `open_orders`. Returns the updated
state together with the (possibly status-mutated) order. -/
def OMState.place_order (om : OMState) (o : Order) : OMState × Order :=
  if o.quantity ≤ 0 then (om, { o with status := .REJECTED })
  else ({ om with open_orders := om.open_orders ++ [o] }, o)

/-- The fill decision of `process_orders` for one order against one bar:
`some px` when the order fills at execution price `px`, `none` when it
stays open. Mirrors the MARKET / LIMIT BUY / LIMIT SELL / STOP branches. -/
def fill_eval (o : Order) (d : BarData) : Option ℚ :=
  match o.order_type with
  | .MARKET => some (engine_slippage.calculate_fill_price d.close o.side none)
  | .LIMIT =>
    match o.side, o.price with
    | .BUY, some limit_price =>
      if d.low ≤ limit_price then some (min limit_price d.open_) else none
    | .SELL, some limit_price =>
      if d.high ≥ limit_price then some (max limit_price d.open_) else none
    | _, none => none
  | .STOP =>
    match o.side, o.price with
    | .BUY, some stop_price =>
      if d.high ≥ stop_price then
        some (engine_slippage.calculate_fill_price stop_price .BUY none) else none
    | .SELL, some stop_price =>
      if d.low ≤ stop_price then
        some (engine_slippage.calculate_fill_price stop_price .SELL none) else none
    | _, none => none

/-- `OrderManager._execute_fill(order, price)`: computes the cost report with
the default-EQUITY cost engine and marks the order FILLED at `price` at
simulation date `t`. -/
def execute_fill (o : Order) (price : ℚ) (t : ℕ) : Order :=
  let cost_report := default_tax_model.calculate price o.quantity o.side .EQUITY
  { o with status := .FILLED, fill_price := price,
           fees := cost_report.total_cost, fill_time := some t }

/-- The filled order `process_orders` produces for `o`, when the bar for its
symbol triggers a fill: `none` when there is no bar or no fill. -/
def applied_fill (market : String → Option BarData) (t : ℕ) (o : Order) :
    Option Order :=
  match market o.symbol with
  | none => none
  | some d => (fill_eval o d).map (fun px => execute_fill o px t)

/-- One iteration of the `process_orders` loop, threading the
(surviving-open, filled-so-far) accumulator. Filled orders are removed from
the open list and appended to the filled list, in iteration order. -/
def process_one (market : String → Option BarData) (t : ℕ)
    (acc : List Order × List Order) (o : Order) : List Order × List Order :=
  match applied_fill market t o with
  | none => (acc.1 ++ [o], acc.2)
  | some f => (acc.1, acc.2 ++ [f])

/-- `OrderManager.process_orders(market_data)`: evaluates every open order
against the current candle in submission order; `t` is the simulation date
stamped on fills (`datetime.now()` in the source). -/
def OMState.process_orders (om : OMState) (market : String → Option BarData)
    (t : ℕ) : OMState :=
  let r := om.open_orders.foldl (process_one market t) ([], om.filled_orders)
  ⟨r.1, r.2⟩

/-! ## src/main.py — BacktestEngine -/

/-- The portfolio / bookkeeping state of `BacktestEngine` that the event
loop mutates. -/
structure EngineState where
  ticker : String
  cash : ℚ
  equity : ℚ
  holdings : ℤ
  portfolio_history : List (ℕ × ℚ)
  oms : OMState
  ledger : List TradeRecord
  last_entry_price : ℚ
  last_entry_date : ℕ

/-- `self.compliance = RiskCompliance({'max_drawdown_limit': 0.20,
'max_sector_exposure': 1.0})` — `max_positions` keeps its default 10. -/
def engine_compliance : RiskCompliance := ⟨0.20, 1.0, 10⟩

/-- `self.sizer = PositionSizer(target_volatility_annual=0.20)`. -/
def engine_sizer : PositionSizer ℚ := ⟨0.20⟩

/-- `BacktestEngine._handle_fill(order)`: applies a fill to cash/holdings;
a SELL fill additionally logs the completed round trip, passing only this
(exit) fill's fees to the ledger. -/
def handle_fill (s : EngineState) (o : Order) : EngineState :=
  let cost := (o.quantity : ℚ) * o.fill_price
  match o.side with
  | .BUY =>
    { s with cash := s.cash - (cost + o.fees),
             holdings := s.holdings + o.quantity,
             last_entry_price := o.fill_price,
             last_entry_date := o.fill_time.getD 0 }
  | .SELL =>
    { s with cash := s.cash + (cost - o.fees),
             holdings := s.holdings - o.quantity,
             ledger := log_trade s.ledger s.ticker s.last_entry_date
               (o.fill_time.getD 0) s.last_entry_price o.fill_price
               o.quantity "LONG" o.fees }

/-- `BacktestEngine._place_entry_order(price, row_data, side)`: sizes with the
hard-coded `vol = 0.015`, checks compliance against the synthesized
portfolio state, and places a MARKET BUY when allowed and the quantity is
positive. `s252` stands for `np.sqrt(252)` inside the sizer. -/
def place_entry_order (s252 : ℚ) (s : EngineState) (price : ℚ) : EngineState :=
  let vol : ℚ := 0.015
  let target_qty := engine_sizer.calculate_quantity s252 s.equity price vol
  let portfolio_state : Portfolio :=
    ⟨if s.holdings > 0 then ["dummy"] else [], 0.0, fun _ => 0, s.equity⟩
  let trade_proposal : TradeProposal :=
    ⟨"ENTRY", some "Tech", (target_qty : ℚ) * price⟩
  let check := engine_compliance.check_trade_permission portfolio_state trade_proposal
  if check.allowed = true ∧ target_qty > 0 then
    { s with oms := (s.oms.place_order (mk_order s.ticker target_qty .BUY .MARKET)).1 }
  else s

/-- `BacktestEngine._place_exit_order(price, side)`: MARKET SELL of the full
holding. -/
def place_exit_order (s : EngineState) : EngineState :=
  { s with oms := (s.oms.place_order (mk_order s.ticker s.holdings .SELL .MARKET)).1 }

/-- One row of `backtest_df`: the bar plus the strategy signal for its date. -/
structure Row where
  date : ℕ
  open_ : ℚ
  high : ℚ
  low : ℚ
  close : ℚ
  signal : ℤ
deriving DecidableEq, Repr

/-- The `market_snapshot` dict built each iteration: today's OHLC for the
engine's single ticker. -/
def snapshot (ticker : String) (row : Row) : String → Option BarData :=
  fun sym => if sym = ticker then some ⟨row.open_, row.high, row.low, row.close⟩
             else none

/-- Phase A of the loop body: `process_orders` on today's snapshot followed
by the `while self.oms.filled_orders:` drain that applies each fill via
`_handle_fill`. -/
def market_sim_phase (s : EngineState) (row : Row) : EngineState :=
  let oms1 := s.oms.process_orders (snapshot s.ticker row) row.date
  oms1.filled_orders.foldl handle_fill { s with oms := ⟨oms1.open_orders, []⟩ }

/-- Phase B: mark-to-market, `equity = cash + holdings * close`, appended to
the portfolio history. -/
def mark_to_market_phase (s : EngineState) (row : Row) : EngineState :=
  let eq := s.cash + (s.holdings : ℚ) * row.close
  { s with equity := eq, portfolio_history := s.portfolio_history ++ [(row.date, eq)] }

/-- Phase C: the trading logic — only runs with an empty open-order book;
entry on signal 1 with zero holdings, short entries skipped, exit on
signal −1 while holding. -/
def trading_logic_phase (s252 : ℚ) (s : EngineState) (row : Row) : EngineState :=
  if s.oms.open_orders = [] then
    if row.signal = 1 ∧ s.holdings = 0 then place_entry_order s252 s row.close
    else if row.signal = -1 ∧ s.holdings = 0 then s
    else if s.holdings > 0 then
      if row.signal = -1 then place_exit_order s else s
    else s
  else s

/-- One iteration of the `BacktestEngine.run` event loop: phases A, B, C in
the source's order. -/
def EngineState.step (s252 : ℚ) (s : EngineState) (row : Row) : EngineState :=
  trading_logic_phase s252 (mark_to_market_phase (market_sim_phase s row) row) row

/-- The fills produced by processing this row's bar, as a function of the
state at the top of the loop body (these are exactly the fills the drain in
phase A hands to `_handle_fill` when the fill queue starts empty). -/
def EngineState.step_fills (s : EngineState) (row : Row) : List Order :=
  (s.oms.process_orders (snapshot s.ticker row) row.date).filled_orders

/-- States of the order manager reachable from a fresh `OrderManager()`
through its two public operations. -/
inductive OMReach : OMState → Prop where
  | init : OMReach ⟨[], []⟩
  | place (om : OMState) (o : Order) : OMReach om → OMReach (om.place_order o).1
  | process (om : OMState) (market : String → Option BarData) (t : ℕ) :
      OMReach om → OMReach (om.process_orders market t)

/-! ## Helper lemmas -/

theorem foldl_process_one (market : String → Option BarData) (t : ℕ)
    (l : List Order) (a b : List Order) :
    l.foldl (process_one market t) (a, b) =
      (a ++ l.filter (fun o => (applied_fill market t o).isNone),
       b ++ l.filterMap (applied_fill market t)) := by
  induction l generalizing a b with
  | nil => simp
  | cons o l ih =>
    simp only [List.foldl_cons, List.filter_cons, List.filterMap_cons]
    cases h : applied_fill market t o with
    | none => simp [process_one, h, ih]
    | some f => simp [process_one, h, ih]

theorem process_orders_eq (om : OMState) (market : String → Option BarData)
    (t : ℕ) :
    om.process_orders market t =
      ⟨om.open_orders.filter (fun o => (applied_fill market t o).isNone),
       om.filled_orders ++ om.open_orders.filterMap (applied_fill market t)⟩ := by
  simp [OMState.process_orders, foldl_process_one]

theorem handle_fill_oms (s : EngineState) (o : Order) :
    (handle_fill s o).oms = s.oms ∧ (handle_fill s o).ticker = s.ticker := by
  cases h : o.side <;> simp [handle_fill, h]

theorem foldl_handle_fill_oms (l : List Order) (s : EngineState) :
    (l.foldl handle_fill s).oms = s.oms ∧ (l.foldl handle_fill s).ticker = s.ticker := by
  induction l generalizing s with
  | nil => exact ⟨rfl, rfl⟩
  | cons o l ih =>
    simpa [List.foldl_cons, (handle_fill_oms s o).1, (handle_fill_oms s o).2]
      using ih (handle_fill s o)

theorem market_sim_phase_oms (s : EngineState) (row : Row) :
    (market_sim_phase s row).oms =
      ⟨(s.oms.process_orders (snapshot s.ticker row) row.date).open_orders, []⟩ ∧
    (market_sim_phase s row).ticker = s.ticker := by
  unfold market_sim_phase
  exact ⟨(foldl_handle_fill_oms _ _).1, (foldl_handle_fill_oms _ _).2⟩

theorem mark_to_market_phase_oms (s : EngineState) (row : Row) :
    (mark_to_market_phase s row).oms = s.oms ∧
    (mark_to_market_phase s row).ticker = s.ticker := by
  simp [mark_to_market_phase]

theorem place_entry_order_oms (s252 : ℚ) (s : EngineState) (price : ℚ) :
    ∃ placed : List Order,
      (place_entry_order s252 s price).oms.open_orders = s.oms.open_orders ++ placed ∧
      (place_entry_order s252 s price).oms.filled_orders = s.oms.filled_orders ∧
      (place_entry_order s252 s price).ticker = s.ticker ∧
      ∀ o ∈ placed, o.status = .OPEN ∧ o.symbol = s.ticker ∧
        o.order_type = .MARKET := by
  unfold place_entry_order OMState.place_order
  dsimp only
  repeat' split
  all_goals
    first
      | exact ⟨[], (List.append_nil _).symm, rfl, rfl, by simp⟩
      | exact ⟨[mk_order s.ticker _ .BUY .MARKET], rfl, rfl, rfl, by simp [mk_order]⟩

theorem place_exit_order_oms (s : EngineState) :
    ∃ placed : List Order,
      (place_exit_order s).oms.open_orders = s.oms.open_orders ++ placed ∧
      (place_exit_order s).oms.filled_orders = s.oms.filled_orders ∧
      (place_exit_order s).ticker = s.ticker ∧
      ∀ o ∈ placed, o.status = .OPEN ∧ o.symbol = s.ticker ∧
        o.order_type = .MARKET := by
  unfold place_exit_order OMState.place_order
  dsimp only
  split
  · exact ⟨[], (List.append_nil _).symm, rfl, rfl, by simp⟩
  · exact ⟨[mk_order s.ticker s.holdings .SELL .MARKET], rfl, rfl, rfl,
      by simp [mk_order]⟩

theorem trading_logic_phase_oms (s252 : ℚ) (s : EngineState) (row : Row) :
    ∃ placed : List Order,
      (trading_logic_phase s252 s row).oms.open_orders = s.oms.open_orders ++ placed ∧
      (trading_logic_phase s252 s row).oms.filled_orders = s.oms.filled_orders ∧
      (trading_logic_phase s252 s row).ticker = s.ticker ∧
      ∀ o ∈ placed, o.status = .OPEN ∧ o.symbol = s.ticker ∧
        o.order_type = .MARKET := by
  unfold trading_logic_phase
  split
  · split
    · exact place_entry_order_oms s252 s row.close
    · split
      · exact ⟨[], by simp⟩
      · split
        · split
          · exact place_exit_order_oms s
          · exact ⟨[], by simp⟩
        · exact ⟨[], by simp⟩
  · exact ⟨[], by simp⟩

theorem step_oms (s252 : ℚ) (s : EngineState) (row : Row) :
    ∃ placed : List Order,
      (EngineState.step s252 s row).oms.open_orders =
        (s.oms.process_orders (snapshot s.ticker row) row.date).open_orders ++ placed ∧
      (EngineState.step s252 s row).oms.filled_orders = [] ∧
      (EngineState.step s252 s row).ticker = s.ticker ∧
      ∀ o ∈ placed, o.status = .OPEN ∧ o.symbol = s.ticker ∧
        o.order_type = .MARKET := by
  unfold EngineState.step
  obtain ⟨placed, h1, h2, h3, h4⟩ :=
    trading_logic_phase_oms s252 (mark_to_market_phase (market_sim_phase s row) row) row
  have hm := mark_to_market_phase_oms (market_sim_phase s row) row
  have hs := market_sim_phase_oms s row
  refine ⟨placed, ?_, ?_, ?_, ?_⟩
  · rw [h1, hm.1, hs.1]
  · rw [h2, hm.1, hs.1]
  · rw [h3, hm.2, hs.2]
  · intro o ho
    have := h4 o ho
    rwa [hm.2, hs.2] at this

/-! ## Claim theorems -/

/-- C4: for every price, positive quantity, side and asset class,
`CostModel.calculate` returns brokerage = min(turnover × 0.0003, 20),
transaction tax = turnover × 0.001 for EQUITY on both sides and
turnover × 0.00025 for INTRADAY SELL only, exchange fee = turnover × 0.0000345,
regulatory fee = turnover × 0.000001, stamp duty = turnover × 0.00015 on BUY
only, consumption tax = 0.18 × (brokerage + exchange fee + regulatory fee),
and total = the sum of all components; for turnover 100,000 on an EQUITY BUY
the total is 142.789 ≈ 142.79. -/
theorem cost_model_components (price : ℚ) (quantity : ℤ) (side : Side)
    (asset_type : AssetType) (hq : 0 < quantity) :
    (default_tax_model.calculate price quantity side asset_type).brokerage
        = min (price * (quantity : ℚ) * 0.0003) 20 ∧
    (asset_type = .EQUITY →
      (default_tax_model.calculate price quantity side asset_type).stt
        = price * (quantity : ℚ) * 0.001) ∧
    (asset_type = .INTRADAY →
      (default_tax_model.calculate price quantity side asset_type).stt
        = if side = .SELL then price * (quantity : ℚ) * 0.00025 else 0) ∧
    (default_tax_model.calculate price quantity side asset_type).exchange_charges
        = price * (quantity : ℚ) * 0.0000345 ∧
    (default_tax_model.calculate price quantity side asset_type).sebi_charges
        = price * (quantity : ℚ) * 0.000001 ∧
    (default_tax_model.calculate price quantity side asset_type).stamp_duty
        = (if side = .BUY then price * (quantity : ℚ) * 0.00015 else 0) ∧
    (default_tax_model.calculate price quantity side asset_type).gst
        = 0.18 * ((default_tax_model.calculate price quantity side asset_type).brokerage
            + (default_tax_model.calculate price quantity side asset_type).exchange_charges
            + (default_tax_model.calculate price quantity side asset_type).sebi_charges) ∧
    (default_tax_model.calculate price quantity side asset_type).total_cost
        = (default_tax_model.calculate price quantity side asset_type).brokerage
            + (default_tax_model.calculate price quantity side asset_type).stt
            + (default_tax_model.calculate price quantity side asset_type).exchange_charges
            + (default_tax_model.calculate price quantity side asset_type).sebi_charges
            + (default_tax_model.calculate price quantity side asset_type).stamp_duty
            + (default_tax_model.calculate price quantity side asset_type).gst ∧
    (default_tax_model.calculate 100 1000 .BUY .EQUITY).total_cost = 142.789 ∧
    |(default_tax_model.calculate 100 1000 .BUY .EQUITY).total_cost - 142.79| < 0.01 := by
  have htot : (default_tax_model.calculate 100 1000 .BUY .EQUITY).total_cost
      = 142.789 := by
    norm_num [IndianTaxModel.calculate, default_tax_model]
  refine ⟨?_, ?_, ?_, ?_, ?_, ?_, ?_, ?_, htot, by
    rw [htot]; norm_num; rw [abs_of_pos] <;> norm_num⟩
  · rfl
  · intro h
    subst h
    rfl
  · intro h
    subst h
    cases side <;> rfl
  · rfl
  · rfl
  · cases side <;> rfl
  · simp only [IndianTaxModel.calculate]
    ring
  · rfl

/-- C4 witness: the theorem applied at price 100, quantity 1000, EQUITY BUY. -/
theorem cost_model_components_witness :
    (default_tax_model.calculate 100 1000 Side.BUY AssetType.EQUITY).brokerage
      = min ((100 : ℚ) * ((1000 : ℤ) : ℚ) * 0.0003) 20 :=
  (cost_model_components 100 1000 Side.BUY AssetType.EQUITY (by decide)).1

/-- C7: for every target price p > 0, base_bps ≥ 0 and optional volatility,
slippage never improves the fill: BUY fills at ≥ p and SELL at ≤ p. -/
theorem slippage_never_improves (m : SlippageModel) (p : ℚ) (vol : Option ℚ)
    (hb : 0 ≤ m.base_bps) (hp : 0 < p) :
    p ≤ m.calculate_fill_price p .BUY vol ∧
    m.calculate_fill_price p .SELL vol ≤ p := by
  have himp : ∀ i : ℚ, 0 ≤ i → p ≤ p * (1 + i) ∧ p * (1 - i) ≤ p := by
    intro i hi
    constructor <;> nlinarith
  have hbase : 0 ≤ m.base_slippage := by
    unfold SlippageModel.base_slippage
    positivity
  unfold SlippageModel.calculate_fill_price
  cases vol with
  | none => exact himp m.base_slippage hbase
  | some v =>
    dsimp only
    split
    · exact himp (m.base_slippage * 2) (by linarith)
    · exact himp m.base_slippage hbase

/-- C7 witness: base_bps 5, target price 100; the MARKET BUY fill of
concrete scenario 1 is 100.05 ≥ 100. -/
theorem slippage_never_improves_witness :
    (100 : ℚ) ≤ engine_slippage.calculate_fill_price 100 .BUY none ∧
    engine_slippage.calculate_fill_price 100 .SELL none ≤ 100 :=
  slippage_never_improves engine_slippage 100 none (by decide) (by decide)

/-- C9: a trade logged with entry price 0 records return percentage 0
instead of dividing by zero. -/
theorem zero_entry_price_return (trades : List TradeRecord) (ticker : String)
    (entry_date exit_date : ℕ) (entry_price exit_price : ℚ) (quantity : ℤ)
    (side : String) (fees : ℚ) (h : entry_price = 0) :
    ∃ r : TradeRecord,
      log_trade trades ticker entry_date exit_date entry_price exit_price
          quantity side fees = trades ++ [r] ∧
      r.return_pct = 0 := by
  refine ⟨mk_trade_record ticker entry_date exit_date entry_price exit_price
    quantity side fees, rfl, ?_⟩
  subst h
  simp [mk_trade_record]

/-- C9 witness: logging a LONG trade with entry price 0 into an empty ledger. -/
theorem zero_entry_price_return_witness :
    ∃ r : TradeRecord,
      log_trade [] "X" 0 1 0 10 5 "LONG" 2 = [] ++ [r] ∧ r.return_pct = 0 :=
  zero_entry_price_return [] "X" 0 1 0 10 5 "LONG" 2 rfl

/-- C5: the compliance checks run in the fixed order (1) max positions for
ENTRY, (2) drawdown, (3) sector exposure, short-circuiting on the first
failure; in particular an ENTRY proposed against a portfolio with at least
max_positions active positions is rejected with a reason naming the limit. -/
theorem compliance_check_order (rc : RiskCompliance) (p : Portfolio)
    (t : TradeProposal) :
    (p.positions.length ≥ rc.max_pos ∧ t.side = "ENTRY" →
      rc.check_trade_permission p t =
        ⟨false, "REJECTED: Max positions reached (" ++ toString p.positions.length
          ++ "/" ++ toString rc.max_pos ++ ")"⟩) ∧
    (¬(p.positions.length ≥ rc.max_pos ∧ t.side = "ENTRY") →
      p.current_drawdown > rc.max_dd →
      rc.check_trade_permission p t =
        ⟨false, "REJECTED: Portfolio in critical drawdown. Trading Halted."⟩) ∧
    (¬(p.positions.length ≥ rc.max_pos ∧ t.side = "ENTRY") →
      ¬(p.current_drawdown > rc.max_dd) →
      ∀ sec, t.sector = some sec → sec ≠ "" →
      p.sector_allocation sec + t.capital_impact / p.total_equity > rc.max_sector →
      rc.check_trade_permission p t = ⟨false, "REJECTED: Sector Limit Exceeded"⟩) := by
  refine ⟨?_, ?_, ?_⟩
  · intro h
    unfold RiskCompliance.check_trade_permission
    rw [if_pos h]
    rfl
  · intro h1 h2
    unfold RiskCompliance.check_trade_permission
    rw [if_neg h1, if_pos h2]
  · intro h1 h2 sec hsec hne h3
    unfold RiskCompliance.check_trade_permission
    rw [if_neg h1, if_neg h2, hsec]
    dsimp only
    rw [if_pos hne, if_pos h3]

/-- C5 witness: concrete scenario 4 — max_positions 10, ten active
positions, proposed ENTRY → rejected, reason naming 10/10. -/
theorem compliance_check_order_witness :
    RiskCompliance.check_trade_permission ⟨0.15, 0.30, 10⟩
      ⟨["a", "b", "c", "d", "e", "f", "g", "h", "i", "j"], 0, fun _ => 0, 1⟩
      ⟨"ENTRY", none, 0⟩
      = ⟨false, "REJECTED: Max positions reached (10/10)"⟩ :=
  (compliance_check_order ⟨0.15, 0.30, 10⟩
      ⟨["a", "b", "c", "d", "e", "f", "g", "h", "i", "j"], 0, fun _ => 0, 1⟩
      ⟨"ENTRY", none, 0⟩).1 ⟨by decide, rfl⟩

/-- C10: a proposed trade with no sector (absent or empty string) skips the
sector-exposure check entirely: it is allowed whenever the position-count
and drawdown checks pass, whatever its capital impact and the existing
allocations. -/
theorem no_sector_skips_check (rc : RiskCompliance) (p : Portfolio)
    (t : TradeProposal) (hsec : t.sector = none ∨ t.sector = some "")
    (h1 : ¬(p.positions.length ≥ rc.max_pos ∧ t.side = "ENTRY"))
    (h2 : ¬(p.current_drawdown > rc.max_dd)) :
    rc.check_trade_permission p t = ⟨true, "Compliance Checks Passed"⟩ := by
  unfold RiskCompliance.check_trade_permission
  rw [if_neg h1, if_neg h2]
  rcases hsec with h | h <;> rw [h]
  dsimp only
  rw [if_neg (by simp)]

/-- C10 witness: an absent sector with a huge capital impact against a tiny
portfolio is still allowed when the first two checks pass. -/
theorem no_sector_skips_check_witness :
    RiskCompliance.check_trade_permission ⟨0.15, 0.30, 10⟩
      ⟨[], 0, fun _ => 0.99, 1⟩ ⟨"ENTRY", none, 1000000⟩
      = ⟨true, "Compliance Checks Passed"⟩ :=
  no_sector_skips_check ⟨0.15, 0.30, 10⟩ ⟨[], 0, fun _ => 0.99, 1⟩
    ⟨"ENTRY", none, 1000000⟩ (Or.inl rfl) (by simp) (by norm_num)

/-- C3: an open LIMIT BUY order with limit L fills on a bar iff bar.low ≤ L,
and when it fills the execution price is min(L, bar.open). -/
theorem limit_buy_fill (o : Order) (L : ℚ) (d : BarData) (om : OMState)
    (market : String → Option BarData) (t : ℕ)
    (hty : o.order_type = .LIMIT) (hside : o.side = .BUY)
    (hp : o.price = some L) (hm : market o.symbol = some d) :
    (∀ px, fill_eval o d = some px ↔ d.low ≤ L ∧ px = min L d.open_) ∧
    (o ∈ om.open_orders → d.low ≤ L →
      execute_fill o (min L d.open_) t ∈ (om.process_orders market t).filled_orders) ∧
    (o ∈ om.open_orders → ¬d.low ≤ L →
      o ∈ (om.process_orders market t).open_orders) := by
  have hfe : fill_eval o d = if d.low ≤ L then some (min L d.open_) else none := by
    simp only [fill_eval, hty, hside, hp]
  refine ⟨?_, ?_, ?_⟩
  · intro px
    rw [hfe]
    split
    next h => simp [h, eq_comm]
    next h => simp [h]
  · intro ho hlow
    rw [process_orders_eq]
    refine List.mem_append_right _ (List.mem_filterMap.mpr ⟨o, ho, ?_⟩)
    simp only [applied_fill, hm]
    rw [hfe, if_pos hlow]
    rfl
  · intro ho hlow
    rw [process_orders_eq]
    refine List.mem_filter.mpr ⟨ho, ?_⟩
    simp only [applied_fill, hm]
    rw [hfe, if_neg hlow]
    rfl

/-- C3 witness: a LIMIT BUY at 100 against a bar with low 99 and open 101
fills at min(100, 101) = 100. -/
theorem limit_buy_fill_witness :
    execute_fill ⟨"R", 10, .BUY, .LIMIT, some 100, .OPEN, 0, none, 0⟩
        (min 100 101) 0
      ∈ ((⟨[⟨"R", 10, .BUY, .LIMIT, some 100, .OPEN, 0, none, 0⟩], []⟩ :
          OMState).process_orders (fun _ => some ⟨101, 102, 99, 100⟩) 0).filled_orders :=
  (limit_buy_fill ⟨"R", 10, .BUY, .LIMIT, some 100, .OPEN, 0, none, 0⟩ 100
    ⟨101, 102, 99, 100⟩ _ _ 0 rfl rfl rfl rfl).2.1 (by simp) (by norm_num)

/-- C8: submitting an order with non-positive quantity REJECTS it and leaves
the book untouched, and no state reachable through the order manager's
operations has an open order with non-positive quantity. -/
theorem reject_nonpositive_quantity (o : Order) (ho : o.quantity ≤ 0)
    (om : OMState) (hr : OMReach om) :
    ((om.place_order o).2.status = .REJECTED ∧ (om.place_order o).1 = om) ∧
    ∀ o2 ∈ om.open_orders, 0 < o2.quantity := by
  constructor
  · unfold OMState.place_order
    rw [if_pos ho]
    exact ⟨rfl, rfl⟩
  · induction hr with
    | init => intro o2 h2; simp at h2
    | place om' o' h ih =>
      intro o2 h2
      unfold OMState.place_order at h2
      by_cases hq : o'.quantity ≤ 0
      · rw [if_pos hq] at h2
        exact ih o2 h2
      · rw [if_neg hq] at h2
        rcases List.mem_append.mp h2 with h3 | h3
        · exact ih o2 h3
        · rw [List.mem_singleton.mp h3]
          exact not_le.mp hq
    | process om' market t h ih =>
      intro o2 h2
      rw [process_orders_eq] at h2
      exact ih o2 (List.mem_filter.mp h2).1

/-- C8 witness: a zero-quantity order against the fresh empty book. -/
theorem reject_nonpositive_quantity_witness :
    (((⟨[], []⟩ : OMState).place_order
        ⟨"R", 0, .BUY, .MARKET, none, .OPEN, 0, none, 0⟩).2.status = .REJECTED ∧
      ((⟨[], []⟩ : OMState).place_order
        ⟨"R", 0, .BUY, .MARKET, none, .OPEN, 0, none, 0⟩).1 = (⟨[], []⟩ : OMState)) ∧
    ∀ o2 ∈ (⟨[], []⟩ : OMState).open_orders, 0 < o2.quantity :=
  reject_nonpositive_quantity ⟨"R", 0, .BUY, .MARKET, none, .OPEN, 0, none, 0⟩
    (by decide) ⟨[], []⟩ OMReach.init

/-- C2 (amended): a BUY fill followed by a SELL fill of the full held
quantity appends exactly one TradeRecord whose quantity, entry price and
exit price come from the two fills, and whose net PnL is
(exit − entry) × quantity minus the EXIT fill's fees only — the entry
fill's fees are deducted from cash at the BUY but are not part of the
record's PnL. -/
theorem round_trip_record (s : EngineState) (ob os : Order)
    (hbuy : ob.side = .BUY) (hsell : os.side = .SELL)
    (hfull : os.quantity = s.holdings + ob.quantity) :
    ∃ r : TradeRecord,
      (handle_fill (handle_fill s ob) os).ledger = s.ledger ++ [r] ∧
      r.quantity = os.quantity ∧
      r.entry_price = ob.fill_price ∧
      r.exit_price = os.fill_price ∧
      r.fees = os.fees ∧
      r.net_pnl = (os.fill_price - ob.fill_price) * (os.quantity : ℚ) - os.fees := by
  refine ⟨mk_trade_record s.ticker (ob.fill_time.getD 0) (os.fill_time.getD 0)
    ob.fill_price os.fill_price os.quantity "LONG" os.fees, ?_, rfl, rfl, rfl, rfl, ?_⟩
  · simp only [handle_fill, hbuy, hsell]
    rfl
  · simp [mk_trade_record]

/-- C2 counterexample: with entry fees 10 and exit fees 5 the recorded net
PnL is (110 − 100)·10 − 5 = 95, not (110 − 100)·10 − (10 + 5) = 85 as the
claim (total fees of both fills) requires. -/
theorem round_trip_record_counterexample :
    ((handle_fill (handle_fill
        (⟨"R", 1000000, 1000000, 0, [], ⟨[], []⟩, [], 0, 0⟩ : EngineState)
        ⟨"R", 10, .BUY, .MARKET, none, .FILLED, 100, some 1, 10⟩)
        ⟨"R", 10, .SELL, .MARKET, none, .FILLED, 110, some 2, 5⟩).ledger.map
      TradeRecord.net_pnl) = [95] ∧
    (95 : ℚ) ≠ ((110 : ℚ) - 100) * 10 - (10 + 5) := by
  constructor
  · norm_num [handle_fill, log_trade, mk_trade_record]
  · norm_num

/-- C2 witness: the amended theorem applied to the concrete round trip of
the counterexample. -/
theorem round_trip_record_witness :
    ∃ r : TradeRecord,
      (handle_fill (handle_fill
          (⟨"R", 1000000, 1000000, 0, [], ⟨[], []⟩, [], 0, 0⟩ : EngineState)
          ⟨"R", 10, .BUY, .MARKET, none, .FILLED, 100, some 1, 10⟩)
          ⟨"R", 10, .SELL, .MARKET, none, .FILLED, 110, some 2, 5⟩).ledger
        = ([] : List TradeRecord) ++ [r] ∧
      r.quantity = (10 : ℤ) ∧
      r.entry_price = (100 : ℚ) ∧
      r.exit_price = (110 : ℚ) ∧
      r.fees = (5 : ℚ) ∧
      r.net_pnl = ((110 : ℚ) - 100) * ((10 : ℤ) : ℚ) - 5 :=
  round_trip_record ⟨"R", 1000000, 1000000, 0, [], ⟨[], []⟩, [], 0, 0⟩
    ⟨"R", 10, .BUY, .MARKET, none, .FILLED, 100, some 1, 10⟩
    ⟨"R", 10, .SELL, .MARKET, none, .FILLED, 110, some 2, 5⟩
    rfl rfl (by decide)

theorem sqrt252_pos : (0 : ℝ) < Real.sqrt 252 :=
  Real.sqrt_pos.mpr (by norm_num)

theorem sqrt252_sq : Real.sqrt 252 ^ 2 = 252 :=
  Real.sq_sqrt (by norm_num)

/-- The sizer's output at concrete scenario 3 of the spec: capital 1,000,000,
price 2500, daily volatility 0.02, annual target 0.20 — the exact value of
1,000,000 · (0.20/√252)/0.02 / 2500 = 4000/√252 is ≈ 251.976, so the floor
is 251. -/
theorem sizer_concrete :
    PositionSizer.calculate_quantity ⟨(0.20 : ℝ)⟩ (Real.sqrt 252)
      1000000 2500 0.02 = 251 := by
  have hpos := sqrt252_pos
  have hsq := sqrt252_sq
  unfold PositionSizer.calculate_quantity
  rw [if_neg (by norm_num)]
  dsimp only
  have hmin : ((0.20 : ℝ) / Real.sqrt 252) / 0.02 ≤ 1 := by
    rw [div_le_one (by norm_num), div_le_iff hpos]
    nlinarith
  rw [min_eq_left hmin]
  have he : (1000000 : ℝ) * (0.20 / Real.sqrt 252 / 0.02) / 2500
      = 4000 / Real.sqrt 252 := by
    field_simp
    ring
  rw [he]
  have h1 : (251 : ℝ) ≤ 4000 / Real.sqrt 252 := by
    rw [le_div_iff hpos]
    nlinarith
  have h2 : (4000 : ℝ) / Real.sqrt 252 < 252 := by
    rw [div_lt_iff hpos]
    nlinarith
  rw [Int.floor_eq_iff]
  constructor
  · exact_mod_cast h1
  · push_cast
    linarith

/-- C6 (amended): for every annual target, capital, positive price and
positive daily volatility the sizer returns
floor(capital · min((target/√252)/vol, 1) / price), the volatility scalar is
capped at 1.0 however small the volatility is, and at capital 1,000,000,
price 2500, daily volatility 0.02, annual target 0.20 the quantity is 251
(the spec's scenario rounds the scalar to 0.63 and gets 252; the unrounded
value 0.62994 gives 251). -/
theorem sizer_formula (tv capital price vol : ℝ) (hp : 0 < price)
    (hv : 0 < vol) :
    PositionSizer.calculate_quantity ⟨tv⟩ (Real.sqrt 252) capital price vol
      = ⌊capital * min ((tv / Real.sqrt 252) / vol) 1 / price⌋ ∧
    min ((tv / Real.sqrt 252) / vol) 1 ≤ 1 ∧
    PositionSizer.calculate_quantity ⟨(0.20 : ℝ)⟩ (Real.sqrt 252)
      1000000 2500 0.02 = 251 := by
  refine ⟨?_, min_le_right _ _, sizer_concrete⟩
  unfold PositionSizer.calculate_quantity
  rw [if_neg (not_le.mpr hv)]

/-- C6 witness: the formula theorem applied at the concrete scenario. -/
theorem sizer_formula_witness :
    PositionSizer.calculate_quantity ⟨(0.20 : ℝ)⟩ (Real.sqrt 252)
      1000000 2500 0.02 = 251 :=
  (sizer_formula 0.20 1000000 2500 0.02 (by norm_num) (by norm_num)).2.2

/-- C6 counterexample: at the claim's concrete inputs the sizer returns 251,
not 252 as claimed. -/
theorem sizer_concrete_not_252 :
    PositionSizer.calculate_quantity ⟨(0.20 : ℝ)⟩ (Real.sqrt 252)
      1000000 2500 0.02 ≠ 252 := by
  rw [sizer_concrete]
  decide

/-- C1: in each simulation step the fills from processing the bar are
applied before the signal logic runs — the step is literally phase A
(process + drain) then B (mark-to-market) then C (signal/order placement);
every fill applied in the step is the execution of an order that was
already open when the bar arrived; after the step the fill queue is empty
and every open order (in particular one submitted on this bar's close) is
still OPEN; and a MARKET order for the engine's ticker left open by this
step is filled by processing the NEXT bar, whatever that bar is. -/
theorem fills_applied_before_signal (s252 : ℚ) (s : EngineState) (row : Row)
    (hfq : s.oms.filled_orders = [])
    (hopen : ∀ o ∈ s.oms.open_orders, o.status = .OPEN) :
    EngineState.step s252 s row
      = trading_logic_phase s252 (mark_to_market_phase (market_sim_phase s row) row) row ∧
    (∀ f ∈ s.step_fills row, ∃ o ∈ s.oms.open_orders, ∃ d px,
        snapshot s.ticker row o.symbol = some d ∧ fill_eval o d = some px ∧
        f = execute_fill o px row.date) ∧
    (EngineState.step s252 s row).oms.filled_orders = [] ∧
    (∀ o ∈ (EngineState.step s252 s row).oms.open_orders, o.status = .OPEN) ∧
    (∀ o ∈ (EngineState.step s252 s row).oms.open_orders,
        o.symbol = s.ticker → o.order_type = .MARKET →
        ∀ row2 : Row, ∃ px,
          execute_fill o px row2.date ∈ (EngineState.step s252 s row).step_fills row2) := by
  obtain ⟨placed, hop, hfill, htick, hplaced⟩ := step_oms s252 s row
  refine ⟨rfl, ?_, hfill, ?_, ?_⟩
  · intro f hf
    unfold EngineState.step_fills at hf
    rw [process_orders_eq, hfq] at hf
    simp only [List.nil_append] at hf
    obtain ⟨o, ho, happ⟩ := List.mem_filterMap.mp hf
    refine ⟨o, ho, ?_⟩
    unfold applied_fill at happ
    cases hm : snapshot s.ticker row o.symbol with
    | none => rw [hm] at happ; simp at happ
    | some d =>
      rw [hm] at happ
      simp only [Option.map_eq_some'] at happ
      obtain ⟨px, hpx, hfx⟩ := happ
      exact ⟨d, px, rfl, hpx, hfx.symm⟩
  · intro o ho
    rw [hop] at ho
    rcases List.mem_append.mp ho with h | h
    · rw [process_orders_eq] at h
      exact hopen o (List.mem_filter.mp h).1
    · exact (hplaced o h).1
  · intro o ho hsym hmkt row2
    refine ⟨engine_slippage.calculate_fill_price row2.close o.side none, ?_⟩
    unfold EngineState.step_fills
    rw [process_orders_eq, hfill, htick]
    simp only [List.nil_append]
    refine List.mem_filterMap.mpr ⟨o, ho, ?_⟩
    have hsnap : snapshot s.ticker row2 o.symbol
        = some ⟨row2.open_, row2.high, row2.low, row2.close⟩ := by
      unfold snapshot
      rw [hsym, if_pos rfl]
    simp only [applied_fill, hsnap]
    simp only [fill_eval, hmkt]
    rfl

/-- C1 witness: one step from a fresh engine state with an empty book on a
signal-1 bar leaves the fill queue empty. -/
theorem fills_applied_before_signal_witness :
    (EngineState.step 15
        ⟨"R", 1000000, 1000000, 0, [], ⟨[], []⟩, [], 0, 0⟩
        ⟨0, 100, 101, 99, 100, 1⟩).oms.filled_orders = [] :=
  (fills_applied_before_signal 15
    ⟨"R", 1000000, 1000000, 0, [], ⟨[], []⟩, [], 0, 0⟩
    ⟨0, 100, 101, 99, 100, 1⟩ rfl (by simp)).2.2.1
